import Mathlib

/-!
Verification of the pagerank repository (src/project_2/pagerank/pagerank.py).

The Python module is translated into a shallow embedding below. Python is
dynamically typed, so runtime values that flow through the core functions are
modelled by the type PyVal (strings, numbers, sets of strings); Python dicts
built by this program always have string keys and are modelled as ordered
association lists. Operations that raise at runtime (random.choice applied to
a set or a dict, indexing a string-keyed dict with an int, dividing a list by
an int) return Except values, mirroring CPython semantics:
random.choice(seq) evaluates seq[i] for an int i drawn below len(seq)
(0 when the length is 0), so it raises TypeError on a set (sets are not
subscriptable), KeyError on a dict whose keys are strings (the int is looked
up as a dict key), and IndexError on an empty string. The random index drawn
by each random.choice call is modelled by an explicit Nat parameter.
-/

/-- The runtime exceptions the embedded code can raise. -/
inductive PyErr where
  | typeError
  | keyError
  | indexError
  deriving DecidableEq, Repr

/-- Python runtime values flowing through pagerank.py: page-name strings,
floats (modelled as rationals), and sets of page-name strings. -/
inductive PyVal where
  | str : String → PyVal
  | num : ℚ → PyVal
  | pyset : List String → PyVal
  deriving DecidableEq, Repr

/-- A Python dict with string keys, in insertion order (as Python dicts are).
Every dict created by pagerank.py has string keys. -/
abbrev PyDict := List (String × PyVal)

/-- d[k] for a string key k: the value when present, KeyError otherwise. -/
def dictGet (d : PyDict) (k : String) : Except PyErr PyVal :=
  match d.find? (fun kv => kv.1 = k) with
  | some kv => .ok kv.2
  | none => .error .keyError

/-- d[k] = v: replace the value at an existing key, else append the new pair
(Python dicts keep insertion order). -/
def dictSet (d : PyDict) (k : String) (v : PyVal) : PyDict :=
  if d.any (fun kv => kv.1 = k) then
    d.map (fun kv => if kv.1 = k then (k, v) else kv)
  else
    d ++ [(k, v)]

/-- d[i] for an int i (as in sampled_pages[count], line 98): the dict is
string-keyed, so the int key is never present and the lookup raises
KeyError. -/
def dictGetIntKey (d : PyDict) (i : Nat) : Except PyErr PyVal :=
  .error .keyError

/-- random.choice(v) for a PyVal v, with r the random index drawn.
On a string it returns a one-character string (IndexError when empty);
on a number, TypeError (no len); on a set, TypeError (not subscriptable). -/
def pyChoice (r : Nat) : PyVal → Except PyErr String
  | .str s =>
      if s.data.length = 0 then .error .indexError
      else .ok (String.mk [s.data.getD (r % s.data.length) 'a'])
  | .num _ => .error .typeError
  | .pyset _ => .error .typeError

/-- random.choice(d) for a dict d (line 90): CPython evaluates d[i] for an
int index i, and every key of d is a string, so this raises KeyError. -/
def pyDictChoice (r : Nat) (d : PyDict) : Except PyErr PyVal :=
  .error .keyError

/-- transition_model (pagerank.py lines 52-76).
Line 64: linked_page = random.choice(page).
Lines 65-69: other_pages = the set of corpus keys different from page.
Line 71: random.choice(other_pages) is evaluated first, then the dict lookup,
then the inner random.choice.
Lines 73-74: the two probability assignments. -/
def transition_model (corpus : PyDict) (page : PyVal) (damping_factor : ℚ)
    (r1 r2 r3 : Nat) : Except PyErr PyDict := do
  let linked_page ← pyChoice r1 page
  let other_pages : List String :=
    (corpus.map Prod.fst).filter (fun i => PyVal.str i ≠ page)
  let other ← pyChoice r2 (PyVal.pyset other_pages)
  let ov ← dictGet corpus other
  let link_from_other_page ← pyChoice r3 ov
  pure (dictSet (dictSet [] linked_page (PyVal.num damping_factor))
    link_from_other_page (PyVal.num (1 - damping_factor)))

/-- The while loop of sample_pagerank (lines 94-99), with count running from
1 while count <= n; the fuel argument is n + 1 - count, which is exact for
this loop. Each pass copies the sampled dict into pagerank, evaluates
sampled_pages[count] (an int index into a string-keyed dict), and calls
transition_model on the sampled dict. -/
def sampleLoop (damping_factor : ℚ) (rng : Nat → Nat × Nat × Nat) (n : Nat) :
    Nat → Nat → PyDict → PyDict → Except PyErr PyDict
  | 0, _, pagerank, _ => .ok pagerank
  | fuel + 1, count, pagerank, sampled_pages =>
    if count ≤ n then do
      let pagerank := sampled_pages.foldl (fun pr kv => dictSet pr kv.1 kv.2) pagerank
      let page ← dictGetIntKey sampled_pages count
      let next ← transition_model sampled_pages page damping_factor
        (rng count).1 (rng count).2.1 (rng count).2.2
      sampleLoop damping_factor rng n fuel (count + 1) pagerank next
    else .ok pagerank

/-- sample_pagerank (pagerank.py lines 78-101). Line 90 draws the starting
page with random.choice(corpus); line 91 calls transition_model; lines 94-99
run the sampling loop. r0 models the index drawn at line 90 and rng the
indices drawn by the random.choice calls inside each transition_model call. -/
def sample_pagerank (corpus : PyDict) (damping_factor : ℚ) (n : Nat)
    (r0 : Nat) (rng : Nat → Nat × Nat × Nat) : Except PyErr PyDict := do
  let starting_page ← pyDictChoice r0 corpus
  let sampled_pages ← transition_model corpus starting_page damping_factor
    (rng 0).1 (rng 0).2.1 (rng 0).2.2
  sampleLoop damping_factor rng n n 1 [] sampled_pages

/-- for i in page: the characters of the page name, as one-character
strings (Python iterates a string by character). -/
def pyStrChars (s : String) : List String :=
  s.data.map (fun c => String.mk [c])

/-- Line 125 divides the list [i for i in page if i] by the int len(page).
Python defines no division of a list by an int, so this raises TypeError
(before sum is ever applied). -/
def pyDivListInt (l : List String) (n : Nat) : Except PyErr PyVal :=
  .error .typeError

/-- sum(x) as applied at line 125. Its argument would be the result of the
list division, which always raises first; on any PyVal of this program
(a string, a number, or a set of strings) sum raises TypeError as well. -/
def pySum (v : PyVal) : Except PyErr ℚ :=
  .error .typeError

/-- Subtraction at line 126: defined on two numbers, TypeError otherwise. -/
def pySub (a b : PyVal) : Except PyErr PyVal :=
  match a, b with
  | .num x, .num y => .ok (.num (x - y))
  | _, _ => .error .typeError

/-- abs at line 129: defined on a number, TypeError otherwise. -/
def pyAbs (v : PyVal) : Except PyErr ℚ :=
  match v with
  | .num x => .ok |x|
  | _ => .error .typeError

/-- The first for loop of an iterate_pagerank pass (lines 124-126): for each
page, pagerank[page] = (1-d)/N + d * sum([i for i in page if i]/len(page)),
then difference[page] = difference[page] - pagerank[page]. The truthiness
test "if i" keeps the non-empty one-character strings. -/
def iterPass (damping_factor : ℚ) (N : Nat) :
    List String → PyDict → PyDict → Except PyErr (PyDict × PyDict)
  | [], pagerank, difference => .ok (pagerank, difference)
  | page :: rest, pagerank, difference => do
    let items := (pyStrChars page).filter (fun i => i ≠ "")
    let dived ← pyDivListInt items page.length
    let s ← pySum dived
    let pagerank := dictSet pagerank page
      (PyVal.num ((1 - damping_factor) / (N : ℚ) + damping_factor * s))
    let oldd ← dictGet difference page
    let newv ← dictGet pagerank page
    let dv ← pySub oldd newv
    let difference := dictSet difference page dv
    iterPass damping_factor N rest pagerank difference

/-- The second for loop of a pass (lines 128-136): count the pages whose
difference is within 0.001; the two break statements exit only this for
loop (the print at line 135 is I/O and is not modelled). -/
def countLoop (N : Nat) : List String → PyDict → Nat → Except PyErr Nat
  | [], _, count => .ok count
  | page :: rest, difference, count => do
    let dv ← dictGet difference page
    let a ← pyAbs dv
    let count := if a ≤ (1 : ℚ) / 1000 then count + 1 else count
    if count = N then .ok count
    else if N < count then .ok count
    else countLoop N rest difference count

/-- The while True loop of iterate_pagerank (lines 121-138). The loop has no
break of its own, so it can never reach line 140: the fuel argument models
observing finitely many passes, and .ok none means the loop was still
running when the fuel ran out. Line 138 sets difference to a copy of
pagerank before the next pass. -/
def iterLoop (damping_factor : ℚ) (N : Nat) (keys : List String) :
    Nat → PyDict → PyDict → Except PyErr (Option PyDict)
  | 0, _, _ => .ok none
  | fuel + 1, pagerank, difference => do
    let pd ← iterPass damping_factor N keys pagerank difference
    let _ ← countLoop N keys pd.2 0
    iterLoop damping_factor N keys fuel pd.1 pd.1

/-- iterate_pagerank (pagerank.py lines 103-140): N = len(corpus), every
rank initialised to 1/N (lines 116-117), difference starts as a deep copy
of pagerank (line 119), then the while loop. -/
def iterate_pagerank (fuel : Nat) (corpus : PyDict) (damping_factor : ℚ) :
    Except PyErr (Option PyDict) :=
  let N := corpus.length
  let pagerank := corpus.foldl
    (fun pr kv => dictSet pr kv.1 (PyVal.num (1 / (corpus.length : ℚ)))) []
  iterLoop damping_factor N (corpus.map Prod.fst) fuel pagerank pagerank

/-- filename.endswith(suffix), computed on the character lists (the built-in
String.endsWith is equivalent but does not reduce in the kernel). -/
def pyEndsWith (s suffix : String) : Bool :=
  List.isSuffixOf suffix.data s.data

/-- One step of the first loop of crawl (lines 34-40): files that do not end
in ".html" are skipped; for the others, pages[filename] = set(links) -
{filename}. The input pairs each directory entry with the link targets its
regex extraction yields. -/
def crawlStep (acc : PyDict) (fl : String × List String) : PyDict :=
  if pyEndsWith fl.1 ".html" then
    dictSet acc fl.1 (PyVal.pyset ((fl.2.eraseDups).filter (fun l => l ≠ fl.1)))
  else acc

/-- crawl (pagerank.py lines 25-49), from the point where the directory
listing and the per-file regex extraction (excluded I/O and parsing) have
produced the (filename, raw link list) pairs. The second loop (lines 43-47)
reassigns each value to the links that are keys of pages; it never changes
the key set, so filtering every value against the fixed key set is exact. -/
def crawlLinks (pages : PyDict) (kv : String × PyVal) : String × PyVal :=
  (kv.1,
    match kv.2 with
    | PyVal.pyset ls =>
        PyVal.pyset (ls.filter (fun l => pages.any (fun kv2 => kv2.1 = l)))
    | v => v)

def crawl (files : List (String × List String)) : PyDict :=
  (files.foldl crawlStep []).map (crawlLinks (files.foldl crawlStep []))

/-! Helper lemmas about the embedded dict operations and crawl. -/

theorem mem_dictSet {g : PyDict} {k : String} {v : PyVal} {kv : String × PyVal}
    (h : kv ∈ dictSet g k v) : kv = (k, v) ∨ kv ∈ g := by
  unfold dictSet at h
  split at h
  · obtain ⟨kv0, hkv0, heq⟩ := List.mem_map.mp h
    by_cases h1 : kv0.1 = k
    · left
      rw [← heq, if_pos h1]
    · right
      rw [← heq, if_neg h1]
      exact hkv0
  · rcases List.mem_append.mp h with h2 | h2
    · right; exact h2
    · left; simpa using h2

theorem exceptErrorBind {α β : Type} (e : PyErr) (f : α → Except PyErr β) :
    (Except.error e >>= f : Except PyErr β) = Except.error e := rfl

theorem exceptOkBind {α β : Type} (a : α) (f : α → Except PyErr β) :
    (Except.ok a >>= f : Except PyErr β) = f a := rfl

theorem transition_model_never_ok (corpus : PyDict) (page : PyVal) (df : ℚ)
    (r1 r2 r3 : Nat) :
    ∃ e, transition_model corpus page df r1 r2 r3 = .error e := by
  cases page with
  | str s =>
    by_cases h : s.length = 0
    · exact ⟨.indexError,
        by simp [transition_model, pyChoice, h, exceptErrorBind, exceptOkBind]⟩
    · exact ⟨.typeError,
        by simp [transition_model, pyChoice, h, exceptErrorBind, exceptOkBind]⟩
  | num q => exact ⟨.typeError, rfl⟩
  | pyset ls => exact ⟨.typeError, rfl⟩

theorem crawl_fold_selfFree (files : List (String × List String)) :
    ∀ acc : PyDict,
      (∀ kv ∈ acc, ∀ ls, kv.2 = PyVal.pyset ls → ∀ l ∈ ls, l ≠ kv.1) →
      ∀ kv ∈ files.foldl crawlStep acc, ∀ ls, kv.2 = PyVal.pyset ls →
      ∀ l ∈ ls, l ≠ kv.1 := by
  induction files with
  | nil => intro acc hacc; simpa using hacc
  | cons fl fs ih =>
    intro acc hacc
    simp only [List.foldl_cons]
    apply ih
    intro kv hkv ls hls l hl
    unfold crawlStep at hkv
    split at hkv
    · rcases mem_dictSet hkv with h | h
      · subst h
        simp only at hls
        cases hls
        have hmem := List.mem_filter.mp hl
        simpa using hmem.2
      · exact hacc kv h ls hls l hl
    · exact hacc kv hkv ls hls l hl

theorem crawlLinks_fst (pages : PyDict) (kv : String × PyVal) :
    (crawlLinks pages kv).1 = kv.1 := rfl

theorem crawl_any_key (files : List (String × List String)) (l : String) :
    (crawl files).any (fun kv2 => kv2.1 = l) =
    (files.foldl crawlStep []).any (fun kv2 => kv2.1 = l) := by
  unfold crawl
  rw [List.any_map]
  rfl

/-! Claim theorems. -/

/-- Claim C1: the spec says transition_model on a page with outbound links
returns a full distribution (damping/|links| + (1-damping)/N on linked
pages, (1-damping)/N elsewhere, summing to 1). The code instead raises
TypeError on every such call: line 71 applies random.choice to the set
other_pages, and a set is not subscriptable. Evaluated here on the corpus
{a.html: {b.html}, b.html: {a.html}} at page a.html, for every damping
factor and every random draw. -/
theorem transition_model_raises_on_linked_page (damping_factor : ℚ)
    (r1 r2 r3 : Nat) :
    transition_model
      [("a.html", PyVal.pyset ["b.html"]), ("b.html", PyVal.pyset ["a.html"])]
      (PyVal.str "a.html") damping_factor r1 r2 r3 = .error .typeError := rfl

/-- Claim C2: the spec says transition_model on a dangling page returns the
uniform 1/N distribution. The code raises TypeError on every such call
(line 71, random.choice on a set). Evaluated on the corpus
{a.html: {}, b.html: {a.html}} at the dangling page a.html. -/
theorem transition_model_raises_on_dangling_page (damping_factor : ℚ)
    (r1 r2 r3 : Nat) :
    transition_model
      [("a.html", PyVal.pyset []), ("b.html", PyVal.pyset ["a.html"])]
      (PyVal.str "a.html") damping_factor r1 r2 r3 = .error .typeError := rfl

/-- Claim C3: the spec gives the synchronous PageRank update rule; the code
never computes it: line 125 divides the list [i for i in page if i] by
len(page), raising TypeError in the very first pass, for every damping
factor and any number of observed passes. -/
theorem iterate_pagerank_raises_in_first_pass (damping_factor : ℚ) (fuel : Nat) :
    iterate_pagerank (fuel + 1)
      [("a.html", PyVal.pyset ["b.html"]), ("b.html", PyVal.pyset ["a.html"])]
      damping_factor = .error .typeError := rfl

/-- Claim C4: the spec requires convergence detection, a hard iteration cap
and a ConvergenceError. The code has none of these (its while True loop has
no exit at all, the breaks at lines 133 and 136 only leave the inner for
loop); in fact it raises TypeError in the first pass (line 125). Evaluated
at the one-page corpus {solo.html: {}} with the cap of 10000 passes the
spec suggests. -/
theorem iterate_pagerank_never_converges (damping_factor : ℚ) :
    iterate_pagerank 10000 [("solo.html", PyVal.pyset [])] damping_factor
      = .error .typeError := rfl

/-- Claim C5: the spec says sample_pagerank runs an n-step random walk and
returns visit frequencies. The code raises KeyError on every call: line 90
applies random.choice to the corpus dict, which indexes the string-keyed
dict with an int. Evaluated on {p1.html: {p2.html}, p2.html: {}} for every
damping factor, sample count and random draw. -/
theorem sample_pagerank_raises_immediately (damping_factor : ℚ) (n r0 : Nat)
    (rng : Nat → Nat × Nat × Nat) :
    sample_pagerank
      [("p1.html", PyVal.pyset ["p2.html"]), ("p2.html", PyVal.pyset [])]
      damping_factor n r0 rng = .error .keyError := rfl

/-- Claim C6: the spec says each estimator returns a full distribution or a
recoverable error and never crashes with an unhandled exception. On the
two-page corpus {x.html: {y.html}, y.html: {x.html}} with damping 0.85,
sample_pagerank raises an unhandled KeyError and iterate_pagerank an
unhandled TypeError; neither error type of the spec taxonomy exists in the
code. -/
theorem estimators_raise_unhandled_exceptions :
    sample_pagerank
      [("x.html", PyVal.pyset ["y.html"]), ("y.html", PyVal.pyset ["x.html"])]
      (17 / 20) 5 0 (fun _ => (0, 0, 0)) = .error .keyError ∧
    iterate_pagerank 10000
      [("x.html", PyVal.pyset ["y.html"]), ("y.html", PyVal.pyset ["x.html"])]
      (17 / 20) = .error .typeError := ⟨rfl, rfl⟩

/-- Claim C7 counterexample: the claim says crawl fails with a CorpusError
on an empty input collection. The code defines no CorpusError and returns
the ordinary empty graph. -/
theorem crawl_empty_returns_empty_graph : crawl [] = [] := rfl

/-- Claim C7 (amended): on an empty input collection, crawl returns the
ordinary empty graph and raises no error. -/
theorem crawl_empty_input (files : List (String × List String))
    (h : files = []) : crawl files = [] := by
  subst h; rfl

/-- Witness for crawl_empty_input at the empty collection. -/
theorem crawl_empty_input_witness :
    ([] : List (String × List String)) = [] ∧
    crawl ([] : List (String × List String)) = [] :=
  ⟨rfl, crawl_empty_input [] rfl⟩

/-- Claim C8: every link in the graph crawl returns points to a key of that
graph and never to its own page: self-links are dropped by the first loop
(line 40) and links outside the corpus by the second (lines 43-47). -/
theorem crawl_closed_over_keys (files : List (String × List String))
    (kv : String × PyVal) (ls : List String) (l : String)
    (hmem : kv ∈ crawl files) (hval : kv.2 = PyVal.pyset ls) (hl : l ∈ ls) :
    l ≠ kv.1 ∧ (crawl files).any (fun kv2 => kv2.1 = l) = true := by
  unfold crawl at hmem
  obtain ⟨kv0, hkv0, heq⟩ := List.mem_map.mp hmem
  obtain ⟨k0, v0⟩ := kv0
  cases v0 with
  | str s =>
    subst heq
    exact absurd hval (by simp [crawlLinks])
  | num q =>
    subst heq
    exact absurd hval (by simp [crawlLinks])
  | pyset ls0 =>
    subst heq
    rw [show (crawlLinks (files.foldl crawlStep []) (k0, PyVal.pyset ls0)).2 =
        PyVal.pyset (ls0.filter (fun l2 =>
          (files.foldl crawlStep []).any (fun kv2 => kv2.1 = l2))) from rfl] at hval
    injection hval with h2
    subst h2
    have hmf := List.mem_filter.mp hl
    constructor
    · exact crawl_fold_selfFree files [] (by simp) (k0, PyVal.pyset ls0)
        hkv0 ls0 rfl l hmf.1
    · rw [crawl_any_key]
      simpa using hmf.2

/-- Witness for crawl_closed_over_keys: in the corpus built from a.html
(linking to b.html, itself and a missing page), b.html and a non-html file,
the link b.html of page a.html is not a self-link and is a key of the
returned graph. -/
theorem crawl_closed_over_keys_witness :
    ("a.html", PyVal.pyset ["b.html"]) ∈
      crawl [("a.html", ["b.html", "a.html", "gone.html"]),
        ("b.html", ["a.html"]), ("notes.txt", ["a.html"])] ∧
    (PyVal.pyset ["b.html"] : PyVal) = PyVal.pyset ["b.html"] ∧
    "b.html" ∈ ["b.html"] ∧
    ("b.html" ≠ "a.html" ∧
      (crawl [("a.html", ["b.html", "a.html", "gone.html"]),
        ("b.html", ["a.html"]), ("notes.txt", ["a.html"])]).any
        (fun kv2 => kv2.1 = "b.html") = true) :=
  ⟨by decide, rfl, by decide,
    crawl_closed_over_keys _ ("a.html", PyVal.pyset ["b.html"]) ["b.html"]
      "b.html" (by decide) rfl (by decide)⟩

/-- Claim C9: the spec says iterate_pagerank on the three-page cycle
A -> B -> C -> A converges to rank 1/3 for each page. The code raises
TypeError in the first pass (line 125) instead, for every damping factor. -/
theorem iterate_pagerank_raises_on_three_cycle (damping_factor : ℚ) :
    iterate_pagerank 10000
      [("A.html", PyVal.pyset ["B.html"]), ("B.html", PyVal.pyset ["C.html"]),
        ("C.html", PyVal.pyset ["A.html"])] damping_factor
      = .error .typeError := rfl

/-- Claim C10: for every non-empty corpus, every page value, every damping
factor and every random draw, none of the three core operations returns a
value: transition_model raises (IndexError on an empty page name, otherwise
TypeError at the random.choice on a set, line 71), sample_pagerank raises
KeyError at random.choice on the corpus dict (line 90), and
iterate_pagerank raises TypeError at the list division (line 125) within
the first observed pass. -/
theorem pagerank_core_always_raises (corpus : PyDict) (page : PyVal)
    (damping_factor : ℚ) (r1 r2 r3 n r0 : Nat) (rng : Nat → Nat × Nat × Nat)
    (fuel : Nat) (hcorpus : corpus ≠ []) (hfuel : 1 ≤ fuel) :
    (∃ e, transition_model corpus page damping_factor r1 r2 r3 = .error e) ∧
    sample_pagerank corpus damping_factor n r0 rng = .error .keyError ∧
    iterate_pagerank fuel corpus damping_factor = .error .typeError := by
  refine ⟨transition_model_never_ok corpus page damping_factor r1 r2 r3, rfl, ?_⟩
  obtain ⟨kv, rest, rfl⟩ : ∃ kv rest, corpus = kv :: rest := by
    cases corpus with
    | nil => exact absurd rfl hcorpus
    | cons a b => exact ⟨a, b, rfl⟩
  obtain ⟨f, rfl⟩ : ∃ f, fuel = f + 1 := ⟨fuel - 1, by omega⟩
  rfl

/-- Witness for pagerank_core_always_raises at the one-page corpus
{a.html: {}} with damping 0.85, three samples and one observed pass. -/
theorem pagerank_core_always_raises_witness :
    ([("a.html", PyVal.pyset [])] : PyDict) ≠ [] ∧ 1 ≤ 1 ∧
    ((∃ e, transition_model [("a.html", PyVal.pyset [])] (PyVal.str "a.html")
        (17 / 20) 0 0 0 = .error e) ∧
      sample_pagerank [("a.html", PyVal.pyset [])] (17 / 20) 3 0
        (fun _ => (0, 0, 0)) = .error .keyError ∧
      iterate_pagerank 1 [("a.html", PyVal.pyset [])] (17 / 20)
        = .error .typeError) :=
  ⟨by decide, by decide,
    pagerank_core_always_raises [("a.html", PyVal.pyset [])]
      (PyVal.str "a.html") (17 / 20) 0 0 0 3 0 (fun _ => (0, 0, 0)) 1
      (by decide) (by decide)⟩
